import Mathlib

/-!
Shallow embedding of kmansoft/golr — a developer-loop supervisor that watches
source files, rebuilds an executable on change, and supervises the resulting
process.  The repository has two variants of the same program:
  * `src/golr.go`          — embedded below in namespace `V1`
  * `src/unnamed/part_000` — embedded below in namespace `V2`

Modelling conventions:
  * `time.Time` is modelled as `Nat`; `a.After(b)` is strict `b < a`.
  * OS interaction is an explicit oracle record `Env`:
      - `stat` models `os.Stat` + `ModTime` (`none` = stat error),
      - `runGo` models `exec.Command("go", args).CombinedOutput()` as
        (exit code, combined output); the Go `error` is non-nil iff the
        exit code is non-zero,
      - `startProcess` models `os.StartProcess` (error or a process handle),
      - `killProc` models `os.Process.Kill` (its result is discarded by the
        source, see `Runner.kill`).
  * Console output (`fmt.Printf` on the coordinator thread) is modelled as a
    list of `LogEvent`s carrying the printed payloads.  The "Waiting on %s"
    print happens on the background waiter goroutine, not the coordinator
    thread, and is not modelled (concurrency is reduced to the `Event` the
    coordinator's select consumes).
  * The completion channel and the signal channel are modelled by the
    `Event` consumed by one iteration of the coordinator loop: `tick` is the
    select's `default` branch (no channel ready), `pexit e` a message on the
    completion channel (`e` = the `Err` field of `PStateErr`, as a string),
    `signal` a message on the signal channel.  An iteration entered in state
    `building` does not run the select, so `step` ignores the event there.
-/

namespace Golr

/-- An OS process handle (`*os.Process`), identified by a pid. -/
abbrev Proc := Nat

/-- Oracle for all OS interaction used by the program. -/
structure Env where
  stat : String → Option Nat
  runGo : List String → Nat × String
  startProcess : String → List String → Except String Proc
  killProc : Proc → Option String

/-- One console print performed on the coordinator thread, with its payloads.
`buildingBanner` is the bare `Building...` print that only `src/golr.go` has
(line 219); the other events occur in both variants. -/
inductive LogEvent where
  | buildingBanner : LogEvent
  | buildingSrcs (srcs : List String) : LogEvent
  | buildFailedOutput (out : String) : LogEvent
  | buildDone : LogEvent
  | buildFailedErr (code : Nat) : LogEvent
  | starting (outfile : String) (extra : List String) : LogEvent
  | changed (f : String) : LogEvent
  | processExitedErr (e : String) : LogEvent
  | processExitedOk : LogEvent
  | signalReceived (sig : String) : LogEvent
deriving DecidableEq

/-- The string payloads a log event carries (what the corresponding
`fmt.Printf` interpolates).  A value is "logged" iff it occurs among the
payloads of some emitted event. -/
def LogEvent.payloads : LogEvent → List String
  | LogEvent.buildingSrcs srcs => srcs
  | LogEvent.buildFailedOutput out => [out]
  | LogEvent.starting f extra => f :: extra
  | LogEvent.changed f => [f]
  | LogEvent.processExitedErr e => [e]
  | LogEvent.signalReceived sg => [sg]
  | _ => []

/-- Whether the string `v` appears among the payloads of the emitted log. -/
def loggedString (logs : List LogEvent) (v : String) : Bool :=
  logs.any (fun l => l.payloads.contains v)

/-- One invocation of an external tool (`exec.Command(tool, args...)`). -/
structure Invocation where
  tool : String
  args : List String
deriving DecidableEq

/-- The coordinator states, from the `const ( building = iota ... )` block
(identical in both variants). -/
inductive SState where
  | building : SState
  | running : SState
  | killing : SState
  | exiting : SState
deriving DecidableEq

/-- The outcome of the select in one running/killing iteration: `tick` is the
`default` branch, `pexit e` a completion-channel message (its `Err` field),
`signal sg` a signal-channel message. -/
inductive Event where
  | tick : Event
  | pexit (e : Option String) : Event
  | signal (sig : String) : Event
deriving DecidableEq

namespace V1

/-- `Scanner` of src/golr.go lines 51-55 (the `pchan`-free poller state). -/
structure Scanner where
  srcs : List String
  dirs : List String
  mtime : Nat
deriving DecidableEq

/-- `NewScanner` of src/golr.go lines 57-63; `now` is `time.Now()`. -/
def NewScanner (srcs : List String) (dirs : List String) (now : Nat) : Scanner :=
  ⟨srcs, dirs, now⟩

/-- The `for _, f := range s.srcs` loop of `Scanner.detect` (src/golr.go
lines 67-77): returns the first file (with its modification time) whose stat
succeeds and whose modification time is strictly after `base`; files whose
stat fails are skipped. -/
def detectLoop (stat : String → Option Nat) (base : Nat) : List String → Option (String × Nat)
  | [] => none
  | f :: rest =>
    match stat f with
    | some m => if base < m then some (f, m) else detectLoop stat base rest
    | none => detectLoop stat base rest

/-- `Scanner.detect` of src/golr.go lines 65-80: on the first qualifying file
the baseline is replaced by that file's modification time, `Changed: f` is
printed and `true` returned; otherwise the scanner is unchanged and `false`
returned. -/
def Scanner.detect (stat : String → Option Nat) (s : Scanner) :
    Scanner × Bool × List LogEvent :=
  match detectLoop stat s.mtime s.srcs with
  | some (f, m) => ({ s with mtime := m }, true, [LogEvent.changed f])
  | none => (s, false, [])

/-- `Builder` of src/golr.go lines 84-87. -/
structure Builder where
  srcs : List String
  outfile : String
deriving DecidableEq

/-- `NewBuilder` of src/golr.go lines 89-94. -/
def NewBuilder (outfile : String) (srcs : List String) : Builder :=
  ⟨srcs, outfile⟩

/-- The argument list `build -o <outfile> <srcs...>` assembled at src/golr.go
lines 102-106. -/
def Builder.buildArgs (b : Builder) : List String :=
  "build" :: "-o" :: b.outfile :: b.srcs

/-- `Builder.build` of src/golr.go lines 96-120.  Returns the Go `error`
(modelled as the non-zero exit code, `none` on success), the external
invocations performed, and the console output: `Building: srcs`, then either
`Build failed:\n<blob>` or `Build done: <elapsed>`. -/
def Builder.build (env : Env) (b : Builder) :
    Option Nat × List Invocation × List LogEvent :=
  let args := b.buildArgs
  let r := env.runGo args
  let err : Option Nat := if r.1 = 0 then none else some r.1
  let logs := LogEvent.buildingSrcs b.srcs ::
    (match err with
     | some _ => [LogEvent.buildFailedOutput r.2]
     | none => [LogEvent.buildDone])
  (err, [⟨"go", args⟩], logs)

/-- `Runner` of src/golr.go lines 124-128.  The `pchan` field is not part of
the pure state: completion-channel traffic is modelled by `Event.pexit`. -/
structure Runner where
  outfile : String
  proc : Option Proc
deriving DecidableEq

/-- `NewRunner` of src/golr.go lines 130-136: no tracked child initially. -/
def NewRunner (outfile : String) : Runner :=
  ⟨outfile, none⟩

/-- `Runner.spawn` of src/golr.go lines 138-163: prints `Starting <outfile>`,
starts the artifact with argv `[outfile]`; on error the error is returned and
the tracked handle is left as it was; on success the handle is stored. -/
def Runner.spawn (env : Env) (r : Runner) : Runner × Option String × List LogEvent :=
  let argv := [r.outfile]
  let logs := [LogEvent.starting r.outfile []]
  match env.startProcess r.outfile argv with
  | Except.error e => (r, some e, logs)
  | Except.ok p => ({ r with proc := some p }, none, logs)

/-- `Runner.kill` of src/golr.go lines 165-172: with a tracked child it calls
`proc.Kill()` (result discarded), clears the handle and returns true; with no
tracked child it returns false and does nothing. -/
def Runner.kill (env : Env) (r : Runner) : Runner × Bool :=
  match r.proc with
  | some p =>
    let _ := env.killProc p
    ({ r with proc := none }, true)
  | none => (r, false)

/-- The mutable state of the coordinator loop of src/golr.go `main`
(lines 214-259): the `state` variable plus the three components. -/
structure Sys where
  state : SState
  scanner : Scanner
  builder : Builder
  runner : Runner
deriving DecidableEq

/-- The state the loop starts in (src/golr.go lines 205-215): `state`
is `building`, the scanner watches `srcs` with `nil` dirs and baseline
`time.Now()`, and no child is tracked. -/
def initSys (srcs : List String) (outfile : String) (now : Nat) : Sys :=
  ⟨SState.building, NewScanner srcs [] now, NewBuilder outfile srcs, NewRunner outfile⟩

/-- One iteration of the event loop of src/golr.go `main`, lines 216-258.
In `building`: print the banner, build, on build error print
`Build failed <err>`, otherwise spawn (spawn's error is discarded), then set
state to `running` — no select runs, so `ev` is not consumed.  In `running`
or `killing`: the select consumes `ev` (default branch = change detection
with kill-or-rebuild, completion message, or signal).  In `exiting` the loop
has ended and nothing happens. -/
def step (env : Env) (ev : Event) (s : Sys) : Sys × List LogEvent :=
  if s.state = SState.building then
    let br := s.builder.build env
    match br.1 with
    | some code =>
      ({ s with state := SState.running },
        LogEvent.buildingBanner :: br.2.2 ++ [LogEvent.buildFailedErr code])
    | none =>
      let sr := s.runner.spawn env
      ({ s with state := SState.running, runner := sr.1 },
        LogEvent.buildingBanner :: br.2.2 ++ sr.2.2)
  else if s.state = SState.running ∨ s.state = SState.killing then
    match ev with
    | Event.tick =>
      let dr := s.scanner.detect env.stat
      if dr.2.1 then
        let kr := s.runner.kill env
        if kr.2 then
          ({ s with scanner := dr.1, runner := kr.1, state := SState.killing }, dr.2.2)
        else
          ({ s with scanner := dr.1, runner := kr.1, state := SState.building }, dr.2.2)
      else
        ({ s with scanner := dr.1 }, dr.2.2)
    | Event.pexit e =>
      let lg := match e with
        | some msg => [LogEvent.processExitedErr msg]
        | none => [LogEvent.processExitedOk]
      if s.state = SState.killing then ({ s with state := SState.building }, lg)
      else ({ s with state := SState.exiting }, lg)
    | Event.signal sg =>
      ({ s with state := SState.exiting }, [LogEvent.signalReceived sg])
  else (s, [])

/-- Iterated change detection: the scanner after a sequence of `detect`
calls, each with its own stat environment. -/
def runDetects (s : Scanner) : List (String → Option Nat) → Scanner
  | [] => s
  | e :: rest => runDetects (s.detect e).1 rest

end V1

namespace V2

/-- `Scanner` of src/unnamed/part_000 lines 29-33 (same fields as V1). -/
structure Scanner where
  srcs : List String
  dirs : List String
  mtime : Nat
deriving DecidableEq

/-- `NewScanner` of src/unnamed/part_000 lines 35-41. -/
def NewScanner (srcs : List String) (dirs : List String) (now : Nat) : Scanner :=
  ⟨srcs, dirs, now⟩

/-- The loop of `Scanner.detect`, src/unnamed/part_000 lines 45-55
(textually identical to the V1 loop). -/
def detectLoop (stat : String → Option Nat) (base : Nat) : List String → Option (String × Nat)
  | [] => none
  | f :: rest =>
    match stat f with
    | some m => if base < m then some (f, m) else detectLoop stat base rest
    | none => detectLoop stat base rest

/-- `Scanner.detect` of src/unnamed/part_000 lines 43-58. -/
def Scanner.detect (stat : String → Option Nat) (s : Scanner) :
    Scanner × Bool × List LogEvent :=
  match detectLoop stat s.mtime s.srcs with
  | some (f, m) => ({ s with mtime := m }, true, [LogEvent.changed f])
  | none => (s, false, [])

/-- `Builder` of src/unnamed/part_000 lines 62-65. -/
structure Builder where
  srcs : List String
  outfile : String
deriving DecidableEq

/-- `NewBuilder` of src/unnamed/part_000 lines 67-72. -/
def NewBuilder (outfile : String) (srcs : List String) : Builder :=
  ⟨srcs, outfile⟩

/-- The argument list of src/unnamed/part_000 lines 80-84. -/
def Builder.buildArgs (b : Builder) : List String :=
  "build" :: "-o" :: b.outfile :: b.srcs

/-- `Builder.build` of src/unnamed/part_000 lines 74-98 (textually identical
to the V1 build). -/
def Builder.build (env : Env) (b : Builder) :
    Option Nat × List Invocation × List LogEvent :=
  let args := b.buildArgs
  let r := env.runGo args
  let err : Option Nat := if r.1 = 0 then none else some r.1
  let logs := LogEvent.buildingSrcs b.srcs ::
    (match err with
     | some _ => [LogEvent.buildFailedOutput r.2]
     | none => [LogEvent.buildDone])
  (err, [⟨"go", args⟩], logs)

/-- `Runner` of src/unnamed/part_000 lines 102-107: this variant carries the
extra argument vector `args` forwarded to the child.  `pchan` is modelled by
`Event.pexit` as in V1. -/
structure Runner where
  outfile : String
  args : List String
  proc : Option Proc
deriving DecidableEq

/-- `NewRunner` of src/unnamed/part_000 lines 109-116. -/
def NewRunner (outfile : String) (args : List String) : Runner :=
  ⟨outfile, args, none⟩

/-- `Runner.spawn` of src/unnamed/part_000 lines 118-144: argv is the
outfile followed by the forwarded arguments, and the `Starting` print shows
`argv[1:]` as well. -/
def Runner.spawn (env : Env) (r : Runner) : Runner × Option String × List LogEvent :=
  let argv := r.outfile :: r.args
  let logs := [LogEvent.starting r.outfile r.args]
  match env.startProcess r.outfile argv with
  | Except.error e => (r, some e, logs)
  | Except.ok p => ({ r with proc := some p }, none, logs)

/-- `Runner.kill` of src/unnamed/part_000 lines 146-153 (textually identical
to the V1 kill). -/
def Runner.kill (env : Env) (r : Runner) : Runner × Bool :=
  match r.proc with
  | some p =>
    let _ := env.killProc p
    ({ r with proc := none }, true)
  | none => (r, false)

/-- Coordinator loop state of src/unnamed/part_000 `main` (lines 216-259). -/
structure Sys where
  state : SState
  scanner : Scanner
  builder : Builder
  runner : Runner
deriving DecidableEq

/-- Loop entry state of src/unnamed/part_000 lines 207-217: the scanner
watches `srcs` with the configured `dirs`, the runner carries the post-`--`
child arguments. -/
def initSys (srcs : List String) (dirs : List String) (outfile : String)
    (argsChild : List String) (now : Nat) : Sys :=
  ⟨SState.building, NewScanner srcs dirs now, NewBuilder outfile srcs,
    NewRunner outfile argsChild⟩

/-- One iteration of the event loop of src/unnamed/part_000 `main`, lines
218-258.  Identical control flow to V1's loop; the only print difference is
that this variant has no bare `Building...` banner in the building branch. -/
def step (env : Env) (ev : Event) (s : Sys) : Sys × List LogEvent :=
  if s.state = SState.building then
    let br := s.builder.build env
    match br.1 with
    | some code =>
      ({ s with state := SState.running }, br.2.2 ++ [LogEvent.buildFailedErr code])
    | none =>
      let sr := s.runner.spawn env
      ({ s with state := SState.running, runner := sr.1 }, br.2.2 ++ sr.2.2)
  else if s.state = SState.running ∨ s.state = SState.killing then
    match ev with
    | Event.tick =>
      let dr := s.scanner.detect env.stat
      if dr.2.1 then
        let kr := s.runner.kill env
        if kr.2 then
          ({ s with scanner := dr.1, runner := kr.1, state := SState.killing }, dr.2.2)
        else
          ({ s with scanner := dr.1, runner := kr.1, state := SState.building }, dr.2.2)
      else
        ({ s with scanner := dr.1 }, dr.2.2)
    | Event.pexit e =>
      let lg := match e with
        | some msg => [LogEvent.processExitedErr msg]
        | none => [LogEvent.processExitedOk]
      if s.state = SState.killing then ({ s with state := SState.building }, lg)
      else ({ s with state := SState.exiting }, lg)
    | Event.signal sg =>
      ({ s with state := SState.exiting }, [LogEvent.signalReceived sg])
  else (s, [])

end V2

/-- V1 scanner viewed as a V2 scanner (same fields). -/
def scannerV2 (s : V1.Scanner) : V2.Scanner :=
  ⟨s.srcs, s.dirs, s.mtime⟩

/-- V1 builder viewed as a V2 builder (same fields). -/
def builderV2 (b : V1.Builder) : V2.Builder :=
  ⟨b.srcs, b.outfile⟩

/-- V1 runner viewed as a V2 runner carrying the child-argument vector
`args` (V1 has no such vector). -/
def runnerV2 (args : List String) (r : V1.Runner) : V2.Runner :=
  ⟨r.outfile, args, r.proc⟩

/-- V1 coordinator state viewed as a V2 coordinator state with child
arguments `args`. -/
def sysV2 (args : List String) (s : V1.Sys) : V2.Sys :=
  ⟨s.state, scannerV2 s.scanner, builderV2 s.builder, runnerV2 args s.runner⟩

/-- Example filesystem: file `a` last modified at 5, file `b` at 10, nothing
else present. -/
def statAB : String → Option Nat :=
  fun f => if f = "a" then some 5 else if f = "b" then some 10 else none

/-- An environment where every OS interaction is inert: no file stats, the
compiler succeeds with empty output, starting a process fails, kill reports
nothing. -/
def envTriv : Env :=
  ⟨fun _ => none, fun _ => (0, ""), fun _ _ => Except.error "no exec", fun _ => none⟩

/-- An environment where the build succeeds but starting the artifact fails
with error `E-SPAWN`. -/
def envSpawnFail : Env :=
  ⟨fun _ => none, fun _ => (0, "ok"), fun _ _ => Except.error "E-SPAWN", fun _ => none⟩

/-- Like `envSpawnFail` but the spawn error value differs. -/
def envSpawnFail2 : Env :=
  ⟨fun _ => none, fun _ => (0, "ok"), fun _ _ => Except.error "OTHER", fun _ => none⟩

/-- An environment where the compiler exits 1 with combined output `boom`. -/
def envBuildFail : Env :=
  ⟨fun _ => none, fun _ => (1, "boom"), fun _ _ => Except.error "no exec", fun _ => none⟩

/-- An environment where `Process.Kill` itself fails. -/
def envKillFail : Env :=
  ⟨fun _ => none, fun _ => (0, ""), fun _ _ => Except.error "no exec",
    fun _ => some "kill failed"⟩

/-- A coordinator state about to run a building iteration, with no tracked
child (the only way the loop ever enters `building`). -/
def sysB : V1.Sys :=
  ⟨SState.building, ⟨["a.go"], [], 0⟩, ⟨["a.go"], "out"⟩, ⟨"out", none⟩⟩

/-- A coordinator state in `killing`.  The child handle is `none` because
`killing` is only ever entered right after `Runner.kill` returned true,
which clears the handle (see the ownership invariant `handleInv`). -/
def sysK : V1.Sys :=
  ⟨SState.killing, ⟨["a.go"], [], 5⟩, ⟨["a.go"], "out"⟩, ⟨"out", none⟩⟩

/-- Handle-ownership invariant of the coordinator loop: whenever the loop is
about to run an iteration in `killing` or `building`, no child handle is
tracked.  In particular every `spawn` happens with a cleared handle, so at
most one live child reference exists at any time. -/
def handleInv (s : V1.Sys) : Prop :=
  (s.state = SState.killing → s.runner.proc = none) ∧
  (s.state = SState.building → s.runner.proc = none)

/-! Helper lemmas about the detection loop. -/

theorem detectLoop_cons_some (stat : String → Option Nat) (base : Nat)
    (f : String) (rest : List String) (m : Nat) (h : stat f = some m) :
    V1.detectLoop stat base (f :: rest) =
      if base < m then some (f, m) else V1.detectLoop stat base rest := by
  conv_lhs => unfold V1.detectLoop
  rw [h]

theorem detectLoop_cons_none (stat : String → Option Nat) (base : Nat)
    (f : String) (rest : List String) (h : stat f = none) :
    V1.detectLoop stat base (f :: rest) = V1.detectLoop stat base rest := by
  conv_lhs => unfold V1.detectLoop
  rw [h]

theorem detectLoop_eq_none_iff (stat : String → Option Nat) (base : Nat)
    (l : List String) :
    V1.detectLoop stat base l = none ↔
      ∀ f ∈ l, ∀ m, stat f = some m → m ≤ base := by
  induction l with
  | nil => simp [V1.detectLoop]
  | cons f rest ih =>
    simp only [List.mem_cons]
    cases h : stat f with
    | none =>
      rw [detectLoop_cons_none stat base f rest h]
      constructor
      · intro hn g hg m hm
        rcases hg with rfl | hg
        · rw [h] at hm; cases hm
        · exact (ih.mp hn) g hg m hm
      · intro hall
        exact ih.mpr fun g hg m hm => hall g (Or.inr hg) m hm
    | some m =>
      rw [detectLoop_cons_some stat base f rest m h]
      by_cases hm : base < m
      · rw [if_pos hm]
        constructor
        · intro hc; cases hc
        · intro hall
          have := hall f (Or.inl rfl) m h
          omega
      · rw [if_neg hm, ih]
        constructor
        · intro hall g hg t ht
          rcases hg with rfl | hg'
          · rw [h] at ht
            injection ht with ht'
            omega
          · exact hall g hg' t ht
        · intro hall g hg t ht
          exact hall g (Or.inr hg) t ht

theorem detectLoop_some_spec (stat : String → Option Nat) (base : Nat)
    (l : List String) (f : String) (m : Nat)
    (h : V1.detectLoop stat base l = some (f, m)) :
    f ∈ l ∧ stat f = some m ∧ base < m := by
  induction l with
  | nil => simp [V1.detectLoop] at h
  | cons g rest ih =>
    cases hg : stat g with
    | none =>
      rw [detectLoop_cons_none stat base g rest hg] at h
      obtain ⟨h1, h2, h3⟩ := ih h
      exact ⟨List.mem_cons_of_mem _ h1, h2, h3⟩
    | some t =>
      rw [detectLoop_cons_some stat base g rest t hg] at h
      by_cases hb : base < t
      · rw [if_pos hb] at h
        injection h with h'
        obtain ⟨rfl, rfl⟩ : g = f ∧ t = m := by
          constructor
          · exact congrArg Prod.fst h'
          · exact congrArg Prod.snd h'
        exact ⟨List.mem_cons_self g rest, hg, hb⟩
      · rw [if_neg hb] at h
        obtain ⟨h1, h2, h3⟩ := ih h
        exact ⟨List.mem_cons_of_mem _ h1, h2, h3⟩

theorem detectLoop_first (stat : String → Option Nat) (base : Nat)
    (pre post : List String) (f : String) (m : Nat)
    (hpre : ∀ g ∈ pre, ∀ t, stat g = some t → t ≤ base)
    (hf : stat f = some m) (hm : base < m) :
    V1.detectLoop stat base (pre ++ f :: post) = some (f, m) := by
  induction pre with
  | nil =>
    rw [List.nil_append, detectLoop_cons_some stat base f post m hf, if_pos hm]
  | cons g pre ih =>
    have hrest : ∀ g' ∈ pre, ∀ t, stat g' = some t → t ≤ base :=
      fun g' hg' => hpre g' (List.mem_cons_of_mem _ hg')
    rw [List.cons_append]
    cases hgs : stat g with
    | none =>
      rw [detectLoop_cons_none stat base g _ hgs]
      exact ih hrest
    | some t =>
      have ht : t ≤ base := hpre g (List.mem_cons_self g pre) t hgs
      rw [detectLoop_cons_some stat base g _ t hgs, if_neg (by omega)]
      exact ih hrest

theorem detectLoop_skip (stat : String → Option Nat) (base : Nat)
    (l1 l2 : List String) (f : String) (hf : stat f = none) :
    V1.detectLoop stat base (l1 ++ f :: l2) = V1.detectLoop stat base (l1 ++ l2) := by
  induction l1 with
  | nil =>
    rw [List.nil_append, List.nil_append, detectLoop_cons_none stat base f l2 hf]
  | cons g l1 ih =>
    rw [List.cons_append, List.cons_append]
    cases hg : stat g with
    | none =>
      rw [detectLoop_cons_none stat base g _ hg, detectLoop_cons_none stat base g _ hg]
      exact ih
    | some t =>
      rw [detectLoop_cons_some stat base g _ t hg, detectLoop_cons_some stat base g _ t hg]
      by_cases hb : base < t
      · rw [if_pos hb, if_pos hb]
      · rw [if_neg hb, if_neg hb]
        exact ih

theorem detect_srcs_eq (stat : String → Option Nat) (s : V1.Scanner) :
    ((s.detect stat).1).srcs = s.srcs := by
  unfold V1.Scanner.detect
  cases h : V1.detectLoop stat s.mtime s.srcs with
  | none => rfl
  | some p => cases p; rfl

theorem detect_mtime_le (stat : String → Option Nat) (s : V1.Scanner) :
    s.mtime ≤ ((s.detect stat).1).mtime := by
  unfold V1.Scanner.detect
  cases h : V1.detectLoop stat s.mtime s.srcs with
  | none => exact Nat.le_refl _
  | some p =>
    obtain ⟨f, m⟩ := p
    have := detectLoop_some_spec stat s.mtime s.srcs f m h
    simp only
    omega

theorem runDetects_mtime_le (envs : List (String → Option Nat)) (s : V1.Scanner) :
    s.mtime ≤ (V1.runDetects s envs).mtime := by
  induction envs generalizing s with
  | nil => exact Nat.le_refl _
  | cons e rest ih =>
    simp only [V1.runDetects]
    exact Nat.le_trans (detect_mtime_le e s) (ih _)

/-! Helper lemmas relating the two source variants. -/

theorem detectLoopV2_eq (stat : String → Option Nat) (base : Nat)
    (l : List String) :
    V2.detectLoop stat base l = V1.detectLoop stat base l := by
  induction l with
  | nil => rfl
  | cons f rest ih =>
    show (match stat f with
      | some m => if base < m then some (f, m) else V2.detectLoop stat base rest
      | none => V2.detectLoop stat base rest) = _
    conv_rhs => unfold V1.detectLoop
    cases stat f with
    | none => exact ih
    | some m =>
      by_cases hb : base < m
      · simp only [if_pos hb]
      · simp only [if_neg hb]
        exact ih

theorem detectV2_eq (stat : String → Option Nat) (sc : V1.Scanner) :
    V2.Scanner.detect stat (scannerV2 sc) =
      (scannerV2 (V1.Scanner.detect stat sc).1, (V1.Scanner.detect stat sc).2) := by
  unfold V1.Scanner.detect V2.Scanner.detect
  show (match V2.detectLoop stat sc.mtime sc.srcs with
    | some (f, m) => ({ scannerV2 sc with mtime := m }, true, [LogEvent.changed f])
    | none => (scannerV2 sc, false, [])) = _
  rw [detectLoopV2_eq]
  cases V1.detectLoop stat sc.mtime sc.srcs with
  | none => rfl
  | some p =>
    obtain ⟨f, m⟩ := p
    rfl

theorem buildV2_eq (env : Env) (b : V1.Builder) :
    V2.Builder.build env (builderV2 b) = V1.Builder.build env b := rfl

theorem killV2_eq (env : Env) (a : List String) (r : V1.Runner) :
    V2.Runner.kill env (runnerV2 a r) =
      (runnerV2 a (V1.Runner.kill env r).1, (V1.Runner.kill env r).2) := by
  simp only [V1.Runner.kill, V2.Runner.kill, runnerV2]
  cases hp : r.proc with
  | none => simp [hp]
  | some p => simp [hp]

theorem spawnV2_eq (env : Env) (r : V1.Runner) :
    V2.Runner.spawn env (runnerV2 [] r) =
      (runnerV2 [] (V1.Runner.spawn env r).1, (V1.Runner.spawn env r).2) := by
  simp only [V1.Runner.spawn, V2.Runner.spawn, runnerV2]
  cases env.startProcess r.outfile [r.outfile] with
  | error e => rfl
  | ok p => rfl

theorem stepV2_eq (env : Env) (ev : Event) (s : V1.Sys) :
    (V2.step env ev (sysV2 [] s)).1 = sysV2 [] (V1.step env ev s).1 ∧
    (V1.step env ev s).2 = (if s.state = SState.building
      then LogEvent.buildingBanner :: (V2.step env ev (sysV2 [] s)).2
      else (V2.step env ev (sysV2 [] s)).2) := by
  obtain ⟨st, sc, b, r⟩ := s
  cases st with
  | building =>
    simp only [V1.step, V2.step, sysV2, buildV2_eq]
    cases hb : (V1.Builder.build env b).1 with
    | some code => simp [sysV2, hb]
    | none =>
      simp only [hb, spawnV2_eq]
      simp [sysV2]
  | exiting =>
    simp [V1.step, V2.step, sysV2]
  | running =>
    cases ev with
    | tick =>
      simp only [V1.step, V2.step, sysV2, detectV2_eq, killV2_eq]
      cases hd : (V1.Scanner.detect env.stat sc).2.1 with
      | false => simp [sysV2, hd]
      | true =>
        simp only [hd]
        cases hk : (V1.Runner.kill env r).2 with
        | false => simp [sysV2, hk]
        | true => simp [sysV2, hk]
    | pexit e =>
      cases e with
      | none => simp [V1.step, V2.step, sysV2]
      | some msg => simp [V1.step, V2.step, sysV2]
    | signal sg =>
      simp [V1.step, V2.step, sysV2]
  | killing =>
    cases ev with
    | tick =>
      simp only [V1.step, V2.step, sysV2, detectV2_eq, killV2_eq]
      cases hd : (V1.Scanner.detect env.stat sc).2.1 with
      | false => simp [sysV2, hd]
      | true =>
        simp only [hd]
        cases hk : (V1.Runner.kill env r).2 with
        | false => simp [sysV2, hk]
        | true => simp [sysV2, hk]
    | pexit e =>
      cases e with
      | none => simp [V1.step, V2.step, sysV2]
      | some msg => simp [V1.step, V2.step, sysV2]
    | signal sg =>
      simp [V1.step, V2.step, sysV2]

theorem kill_proc_none (env : Env) (r : V1.Runner) :
    ((V1.Runner.kill env r).1).proc = none := by
  cases hp : r.proc <;> simp [V1.Runner.kill, hp]

theorem detect_eq_false_of_all_le (stat : String → Option Nat) (s : V1.Scanner)
    (hall : ∀ f ∈ s.srcs, ∀ t, stat f = some t → t ≤ s.mtime) :
    V1.Scanner.detect stat s = (s, false, []) := by
  have hl : V1.detectLoop stat s.mtime s.srcs = none :=
    (detectLoop_eq_none_iff stat s.mtime s.srcs).mpr hall
  unfold V1.Scanner.detect
  rw [hl]

/-! The claims. -/

/-- C1 counterexample: a file change detected while the coordinator is in
`killing` is not ignored.  Concretely, with baseline 5 and the watched file
modified at 10, the iteration's change-detection branch calls `kill`, which
returns false (the handle was already cleared when `killing` was entered),
so the state moves to `building` — it does not stay `killing`. -/
theorem killing_change_moves_to_building :
    (V1.step
        ⟨fun _ => some 10, fun _ => (0, ""), fun _ _ => Except.error "no exec",
          fun _ => none⟩
        Event.tick sysK).1.state = SState.building ∧
    SState.building ≠ SState.killing := by
  exact ⟨rfl, by decide⟩

/-- C1 (amended): from `killing`, a completion-channel event advances to
`building` and a termination signal forces `exiting`; an iteration whose
select takes the default branch stays in `killing` exactly when no change
is detected — when a change IS detected the state moves to `building`,
because the child handle was already cleared on entering `killing` and
`kill` therefore returns false. -/
theorem killing_transitions (env : Env) (s : V1.Sys) (e : Option String)
    (sg : String) (hk : s.state = SState.killing)
    (hp : s.runner.proc = none) :
    ((V1.step env Event.tick s).1.state =
      (if (V1.Scanner.detect env.stat s.scanner).2.1 then SState.building
       else SState.killing)) ∧
    (V1.step env (Event.pexit e) s).1.state = SState.building ∧
    (V1.step env (Event.signal sg) s).1.state = SState.exiting := by
  have hkill : V1.Runner.kill env s.runner = (s.runner, false) := by
    simp [V1.Runner.kill, hp]
  refine ⟨?_, ?_, ?_⟩
  · cases hd : (V1.Scanner.detect env.stat s.scanner).2.1 with
    | false => simp [V1.step, hk, hd]
    | true => simp [V1.step, hk, hd, hkill]
  · simp [V1.step, hk]
  · simp [V1.step, hk]

/-- C1 witness: the amended transitions at a concrete `killing` state. -/
theorem killing_transitions_witness :
    ((V1.step envTriv Event.tick sysK).1.state =
      (if (V1.Scanner.detect envTriv.stat sysK.scanner).2.1 then SState.building
       else SState.killing)) ∧
    (V1.step envTriv (Event.pexit none) sysK).1.state = SState.building ∧
    (V1.step envTriv (Event.signal "interrupt") sysK).1.state = SState.exiting :=
  killing_transitions envTriv sysK none "interrupt" rfl rfl

/-- C2: every coordinator-loop iteration entered in state `building` ends in
state `running`, whatever the build and spawn outcomes; the compiler is
invoked exactly once in such an iteration (one `Building: srcs` report), so
a failed build is not retried within the cycle. -/
theorem building_always_to_running (env : Env) (ev : Event) (s : V1.Sys)
    (h : s.state = SState.building) :
    (V1.step env ev s).1.state = SState.running ∧
    (V1.step env ev s).2.count (LogEvent.buildingSrcs s.builder.srcs) = 1 := by
  by_cases hz : (env.runGo (V1.Builder.buildArgs s.builder)).1 = 0
  · cases hsp : env.startProcess s.runner.outfile [s.runner.outfile] with
    | error e =>
      simp [V1.step, h, V1.Builder.build, hz, V1.Runner.spawn, hsp, List.count_cons]
    | ok p =>
      simp [V1.step, h, V1.Builder.build, hz, V1.Runner.spawn, hsp, List.count_cons]
  · simp [V1.step, h, V1.Builder.build, hz, List.count_cons]

/-- C2 witness: a concrete building iteration ends in `running` with one
compiler invocation. -/
theorem building_always_to_running_witness :
    (V1.step envTriv Event.tick sysB).1.state = SState.running ∧
    (V1.step envTriv Event.tick sysB).2.count
      (LogEvent.buildingSrcs sysB.builder.srcs) = 1 :=
  building_always_to_running envTriv Event.tick sysB rfl

/-- C3 counterexample: files `a` (modified at 5) and `b` (modified at 10)
with baseline 3.  The first `detect` returns true for `a` and sets the
baseline to 5; a second call with the very same filesystem (no further
changes) returns true again — for `b` — not false as the claim states. -/
theorem detect_second_call_returns_true :
    (V1.Scanner.detect statAB ⟨["a", "b"], [], 3⟩).2.1 = true ∧
    ((V1.Scanner.detect statAB ⟨["a", "b"], [], 3⟩).1).mtime = 5 ∧
    (V1.Scanner.detect statAB
        (V1.Scanner.detect statAB ⟨["a", "b"], [], 3⟩).1).2.1 = true := by
  decide

/-- C3 (amended): `detect` returns true iff some watched file whose stat
succeeds has modification time strictly after the baseline; the scan is in
list order, the first qualifying file wins, the baseline becomes that
file's time and it returns true immediately; a stat failure is silently
skipped; and a subsequent call with no further changes returns false
PROVIDED no other watched file's modification time also exceeds the
updated baseline (automatic when only one file changed) — otherwise the
subsequent call may return true again for a later file. -/
theorem detect_spec (stat : String → Option Nat) (s : V1.Scanner) :
    ((V1.Scanner.detect stat s).2.1 = true ↔
      ∃ f ∈ s.srcs, ∃ m, stat f = some m ∧ s.mtime < m) ∧
    (∀ pre f post m, s.srcs = pre ++ f :: post →
      (∀ g ∈ pre, ∀ t, stat g = some t → t ≤ s.mtime) →
      stat f = some m → s.mtime < m →
      V1.Scanner.detect stat s =
        ({ s with mtime := m }, true, [LogEvent.changed f])) ∧
    ((∀ f ∈ s.srcs, ∀ t, stat f = some t → t ≤ s.mtime) →
      V1.Scanner.detect stat s = (s, false, [])) ∧
    (∀ l1 f l2, s.srcs = l1 ++ f :: l2 → stat f = none →
      V1.detectLoop stat s.mtime s.srcs = V1.detectLoop stat s.mtime (l1 ++ l2)) ∧
    (∀ stat2 : String → Option Nat,
      (∀ f ∈ s.srcs, ∀ t, stat2 f = some t →
        t ≤ ((V1.Scanner.detect stat s).1).mtime) →
      (V1.Scanner.detect stat2 (V1.Scanner.detect stat s).1).2.1 = false) := by
  refine ⟨⟨?_, ?_⟩, ?_, ?_, ?_, ?_⟩
  · intro ht
    unfold V1.Scanner.detect at ht
    cases hl : V1.detectLoop stat s.mtime s.srcs with
    | none => rw [hl] at ht; simp at ht
    | some p =>
      obtain ⟨f, m⟩ := p
      obtain ⟨h1, h2, h3⟩ := detectLoop_some_spec stat s.mtime s.srcs f m hl
      exact ⟨f, h1, m, h2, h3⟩
  · rintro ⟨f, hf, m, hm, hlt⟩
    unfold V1.Scanner.detect
    cases hl : V1.detectLoop stat s.mtime s.srcs with
    | none =>
      have := (detectLoop_eq_none_iff stat s.mtime s.srcs).mp hl f hf m hm
      omega
    | some p =>
      obtain ⟨f2, m2⟩ := p
      rfl
  · intro pre f post m hsrcs hpre hf hm
    have hl : V1.detectLoop stat s.mtime s.srcs = some (f, m) := by
      rw [hsrcs]
      exact detectLoop_first stat s.mtime pre post f m hpre hf hm
    unfold V1.Scanner.detect
    rw [hl]
  · intro hall
    exact detect_eq_false_of_all_le stat s hall
  · intro l1 f l2 hsrcs hf
    rw [hsrcs]
    exact detectLoop_skip stat s.mtime l1 l2 f hf
  · intro stat2 hall
    have hsrcs : ((V1.Scanner.detect stat s).1).srcs = s.srcs :=
      detect_srcs_eq stat s
    have h2 : V1.Scanner.detect stat2 (V1.Scanner.detect stat s).1 =
        ((V1.Scanner.detect stat s).1, false, []) := by
      apply detect_eq_false_of_all_le
      rw [hsrcs]
      exact hall
    rw [h2]

/-- C3 witness: the amended no-further-qualifying-file condition at a
concrete input — a single watched file `b`, changed once; after the true
call, the next call returns false. -/
theorem detect_spec_witness :
    (V1.Scanner.detect statAB
        (V1.Scanner.detect statAB ⟨["b"], [], 3⟩).1).2.1 = false :=
  (detect_spec statAB ⟨["b"], [], 3⟩).2.2.2.2 statAB (by
    intro f hf t ht
    have hfb : f = "b" := by simpa using hf
    subst hfb
    have hb : statAB "b" = some 10 := by decide
    rw [hb] at ht
    injection ht with ht2
    subst ht2
    decide)

/-- C4: the baseline equals the construction-time `now`; each `detect` call
either leaves the scanner entirely unchanged or strictly advances the
baseline to a modification time observed on a watched file; and over any
sequence of calls the baseline never decreases. -/
theorem baseline_monotone (srcs dirs : List String) (now : Nat)
    (stat : String → Option Nat) (s : V1.Scanner)
    (envs : List (String → Option Nat)) :
    (V1.NewScanner srcs dirs now).mtime = now ∧
    ((V1.Scanner.detect stat s).1 = s ∨
      (s.mtime < ((V1.Scanner.detect stat s).1).mtime ∧
        ∃ f ∈ s.srcs, stat f = some ((V1.Scanner.detect stat s).1).mtime)) ∧
    s.mtime ≤ (V1.runDetects s envs).mtime := by
  refine ⟨rfl, ?_, runDetects_mtime_le envs s⟩
  unfold V1.Scanner.detect
  cases hl : V1.detectLoop stat s.mtime s.srcs with
  | none => exact Or.inl rfl
  | some p =>
    obtain ⟨f, m⟩ := p
    obtain ⟨h1, h2, h3⟩ := detectLoop_some_spec stat s.mtime s.srcs f m hl
    exact Or.inr ⟨h3, f, h1, h2⟩

/-- C5: `kill` with no tracked child returns false leaving the runner as it
was; with a tracked child it returns true with the handle cleared. -/
theorem kill_spec (env : Env) (r : V1.Runner) :
    (r.proc = none → V1.Runner.kill env r = (r, false)) ∧
    (∀ p, r.proc = some p → V1.Runner.kill env r = (⟨r.outfile, none⟩, true)) := by
  constructor
  · intro h
    simp [V1.Runner.kill, h]
  · intro p h
    simp [V1.Runner.kill, h]

/-- C5 witness: both `kill` behaviours at concrete runners. -/
theorem kill_spec_witness :
    V1.Runner.kill envTriv ⟨"out", none⟩ = (⟨"out", none⟩, false) ∧
    V1.Runner.kill envTriv ⟨"out", some 7⟩ = (⟨"out", none⟩, true) :=
  ⟨(kill_spec envTriv ⟨"out", none⟩).1 rfl,
   (kill_spec envTriv ⟨"out", some 7⟩).2 7 rfl⟩

/-- C6 counterexample: the coordinator observes the child's exit on the
completion channel while `running` with a live child: it transitions to
`exiting` but does NOT clear the handle — `proc` still holds the old
reference, contradicting "cleared immediately ... upon observing exit,
whichever code path". -/
theorem handle_kept_on_observed_exit :
    ((V1.step envTriv (Event.pexit none)
        ⟨SState.running, ⟨["a.go"], [], 0⟩, ⟨["a.go"], "out"⟩,
          ⟨"out", some 7⟩⟩).1.runner).proc = some 7 ∧
    (V1.step envTriv (Event.pexit none)
        ⟨SState.running, ⟨["a.go"], [], 0⟩, ⟨["a.go"], "out"⟩,
          ⟨"out", some 7⟩⟩).1.state = SState.exiting :=
  ⟨rfl, rfl⟩

/-- C6 (amended): every kill request clears the handle, and the loop never
enters `building` or `killing` with a handle set (`handleInv` holds
initially and is preserved by every iteration) — so each spawn happens with
no tracked child and at most one live reference exists.  However, on
observing the child's exit while `running` the coordinator moves to
`exiting` WITHOUT clearing the handle; the stale reference is only dropped
because the loop ends. -/
theorem handle_ownership :
    (∀ srcs outfile now, handleInv (V1.initSys srcs outfile now)) ∧
    (∀ env ev s, handleInv s → handleInv (V1.step env ev s).1) ∧
    (∀ env r p, r.proc = some p → ((V1.Runner.kill env r).1).proc = none) ∧
    (∀ env s e, s.state = SState.running →
      (V1.step env (Event.pexit e) s).1.runner = s.runner ∧
      (V1.step env (Event.pexit e) s).1.state = SState.exiting) := by
  refine ⟨?_, ?_, ?_, ?_⟩
  · intro srcs outfile now
    exact ⟨fun h => by simp [V1.initSys] at h, fun _ => rfl⟩
  · intro env ev s hInv
    obtain ⟨st, sc, b, r⟩ := s
    obtain ⟨hKill, hBuild⟩ := hInv
    cases st with
    | building =>
      cases hb : (V1.Builder.build env b).1 with
      | some code => simp [V1.step, hb, handleInv]
      | none => simp [V1.step, hb, handleInv]
    | exiting => exact ⟨hKill, hBuild⟩
    | running =>
      cases ev with
      | tick =>
        cases hd : (V1.Scanner.detect env.stat sc).2.1 with
        | false => simp [V1.step, hd, handleInv]
        | true =>
          cases hk : (V1.Runner.kill env r).2 with
          | false => simp [V1.step, hd, hk, handleInv, kill_proc_none]
          | true => simp [V1.step, hd, hk, handleInv, kill_proc_none]
      | pexit e => simp [V1.step, handleInv]
      | signal sg => simp [V1.step, handleInv]
    | killing =>
      cases ev with
      | tick =>
        cases hd : (V1.Scanner.detect env.stat sc).2.1 with
        | false =>
          simp [V1.step, hd, handleInv]
          exact hKill rfl
        | true =>
          cases hk : (V1.Runner.kill env r).2 with
          | false => simp [V1.step, hd, hk, handleInv, kill_proc_none]
          | true => simp [V1.step, hd, hk, handleInv, kill_proc_none]
      | pexit e =>
        simp [V1.step, handleInv]
        exact hKill rfl
      | signal sg => simp [V1.step, handleInv]
  · intro env r p h
    simp [V1.Runner.kill, h]
  · intro env s e hst
    constructor <;> simp [V1.step, hst]

/-- C6 witness: the invariant at a concrete initial state and after one
step, the clearing kill, and a concrete running-exit observation. -/
theorem handle_ownership_witness :
    handleInv (V1.step envTriv Event.tick (V1.initSys ["a.go"] "out" 0)).1 ∧
    ((V1.Runner.kill envTriv ⟨"out", some 7⟩).1).proc = none ∧
    (V1.step envTriv (Event.pexit none)
        ⟨SState.running, ⟨["a.go"], [], 0⟩, ⟨["a.go"], "out"⟩,
          ⟨"out", some 3⟩⟩).1.state = SState.exiting :=
  ⟨handle_ownership.2.1 envTriv Event.tick (V1.initSys ["a.go"] "out" 0)
      ⟨fun _ => rfl, fun _ => rfl⟩,
   handle_ownership.2.2.1 envTriv ⟨"out", some 7⟩ 7 rfl,
   (handle_ownership.2.2.2 envTriv
      ⟨SState.running, ⟨["a.go"], [], 0⟩, ⟨["a.go"], "out"⟩, ⟨"out", some 3⟩⟩
      none rfl).2⟩

/-- C7 counterexample: the build succeeds but the artifact cannot be
started (`startProcess` fails with `E-SPAWN`).  The loop proceeds to
`running`, but the spawn error is NOT logged: its value appears nowhere in
the emitted output, because `main` discards `runner.spawn()`'s return
value. -/
theorem spawn_error_silently_dropped :
    envSpawnFail.startProcess "out" ["out"] = Except.error "E-SPAWN" ∧
    loggedString (V1.step envSpawnFail Event.tick sysB).2 "E-SPAWN" = false ∧
    (V1.step envSpawnFail Event.tick sysB).1.state = SState.running := by
  refine ⟨rfl, ?_, rfl⟩
  decide

/-- C7 (amended): a spawn failure leaves no live child tracked and the loop
proceeds to `running` exactly as after a build error, remaining responsive
to further events; but the spawn error value itself is discarded, never
logged — the entire outcome of the building iteration is independent of
it. -/
theorem spawn_error_spec (env env2 : Env) (ev : Event) (s : V1.Sys)
    (e e2 : String)
    (hb : s.state = SState.building) (hp : s.runner.proc = none)
    (hrun : env.runGo = env2.runGo)
    (h1 : env.startProcess s.runner.outfile [s.runner.outfile] = Except.error e)
    (h2 : env2.startProcess s.runner.outfile [s.runner.outfile] = Except.error e2) :
    (V1.step env ev s).1.state = SState.running ∧
    ((V1.step env ev s).1.runner).proc = none ∧
    V1.step env ev s = V1.step env2 ev s := by
  have hbld : V1.Builder.build env2 s.builder = V1.Builder.build env s.builder := by
    simp [V1.Builder.build, hrun]
  have hsp1 : V1.Runner.spawn env s.runner =
      (s.runner, some e, [LogEvent.starting s.runner.outfile []]) := by
    simp [V1.Runner.spawn, h1]
  have hsp2 : V1.Runner.spawn env2 s.runner =
      (s.runner, some e2, [LogEvent.starting s.runner.outfile []]) := by
    simp [V1.Runner.spawn, h2]
  refine ⟨?_, ?_, ?_⟩
  · cases hberr : (V1.Builder.build env s.builder).1 with
    | some code => simp [V1.step, hb, hberr]
    | none => simp [V1.step, hb, hberr]
  · cases hberr : (V1.Builder.build env s.builder).1 with
    | some code => simp [V1.step, hb, hberr, hp]
    | none => simp [V1.step, hb, hberr, hsp1, hp]
  · cases hberr : (V1.Builder.build env s.builder).1 with
    | some code => simp [V1.step, hb, hberr, hbld]
    | none => simp [V1.step, hb, hberr, hbld, hsp1, hsp2]

/-- C7 witness: the amended behaviour at a concrete failing spawn. -/
theorem spawn_error_spec_witness :
    (V1.step envSpawnFail Event.tick sysB).1.state = SState.running ∧
    ((V1.step envSpawnFail Event.tick sysB).1.runner).proc = none ∧
    V1.step envSpawnFail Event.tick sysB = V1.step envSpawnFail2 Event.tick sysB :=
  spawn_error_spec envSpawnFail envSpawnFail2 Event.tick sysB "E-SPAWN" "OTHER"
    rfl rfl rfl rfl rfl

/-- C8: `build` performs exactly one external invocation — `go` with
arguments `build -o outfile srcs...` — reports failure exactly when the
compiler exit code is non-zero, and on failure the captured combined
output blob is reported. -/
theorem build_spec (env : Env) (b : V1.Builder) :
    (V1.Builder.build env b).2.1 =
      [⟨"go", "build" :: "-o" :: b.outfile :: b.srcs⟩] ∧
    ((V1.Builder.build env b).1 ≠ none ↔ (env.runGo b.buildArgs).1 ≠ 0) ∧
    ((V1.Builder.build env b).1 ≠ none →
      LogEvent.buildFailedOutput (env.runGo b.buildArgs).2 ∈
        (V1.Builder.build env b).2.2) := by
  refine ⟨rfl, ?_, ?_⟩ <;>
    by_cases hz : (env.runGo (V1.Builder.buildArgs b)).1 = 0 <;>
      simp [V1.Builder.build, hz]

/-- C8 witness: a concrete failing build reports the captured blob. -/
theorem build_spec_witness :
    LogEvent.buildFailedOutput "boom" ∈
      (V1.Builder.build envBuildFail ⟨["a.go"], "out"⟩).2.2 :=
  (build_spec envBuildFail ⟨["a.go"], "out"⟩).2.2 (by decide)

/-- C9: `kill` ignores the result of the OS kill request: its outcome is
the same under any `killProc` behaviour, and even when the kill request
fails it still clears the handle and returns true. -/
theorem kill_ignores_kill_result (env env2 : Env) (r : V1.Runner) (p : Proc)
    (e : String) :
    V1.Runner.kill env r = V1.Runner.kill env2 r ∧
    (r.proc = some p → env.killProc p = some e →
      V1.Runner.kill env r = (⟨r.outfile, none⟩, true)) := by
  constructor
  · cases hp : r.proc <;> simp [V1.Runner.kill, hp]
  · intro h hke
    simp [V1.Runner.kill, h]

/-- C9 witness: `kill` under an environment whose kill request fails. -/
theorem kill_ignores_kill_result_witness :
    V1.Runner.kill envKillFail ⟨"out", some 3⟩ = (⟨"out", none⟩, true) :=
  (kill_ignores_kill_result envKillFail envTriv ⟨"out", some 3⟩ 3
    "kill failed").2 rfl rfl

/-- C10 counterexample: even with an empty forwarded argument vector the
two coordinator loops do not compute the same output — on a building
iteration src/golr.go prints a `Building...` banner that the other variant
lacks, so the variants do not differ ONLY in command-line parsing and the
forwarded argument vector. -/
theorem variants_output_differs :
    (V1.step envTriv Event.tick sysB).2 ≠
      (V2.step envTriv Event.tick (sysV2 [] sysB)).2 := by
  decide

/-- C10 (amended): `Scanner.detect`, `Builder.build` and `Runner.kill`
compute the same functions in both variants, `spawn` agrees when the
forwarded argument vector is empty, and the coordinator loops compute the
same state transitions; besides command-line parsing and the forwarded
argument vector, the variants additionally differ in one log line —
golr.go's building iteration prints a `Building...` banner the other
variant lacks, and that banner is the only output difference. -/
theorem variants_core_equiv (stat : String → Option Nat) (env : Env)
    (ev : Event) (s : V1.Sys) (sc : V1.Scanner) (b : V1.Builder)
    (r : V1.Runner) (a : List String) :
    V2.Scanner.detect stat (scannerV2 sc) =
      (scannerV2 (V1.Scanner.detect stat sc).1, (V1.Scanner.detect stat sc).2) ∧
    V2.Builder.build env (builderV2 b) = V1.Builder.build env b ∧
    V2.Runner.kill env (runnerV2 a r) =
      (runnerV2 a (V1.Runner.kill env r).1, (V1.Runner.kill env r).2) ∧
    V2.Runner.spawn env (runnerV2 [] r) =
      (runnerV2 [] (V1.Runner.spawn env r).1, (V1.Runner.spawn env r).2) ∧
    (V2.step env ev (sysV2 [] s)).1 = sysV2 [] (V1.step env ev s).1 ∧
    (V1.step env ev s).2 = (if s.state = SState.building
      then LogEvent.buildingBanner :: (V2.step env ev (sysV2 [] s)).2
      else (V2.step env ev (sysV2 [] s)).2) :=
  ⟨detectV2_eq stat sc, buildV2_eq env b, killV2_eq env a r, spawnV2_eq env r,
   (stepV2_eq env ev s).1, (stepV2_eq env ev s).2⟩

end Golr
